import Mathlib

/-!
# EIP-1559 base fee: CalcBaseFee and VerifyEIP1559Header

A shallow embedding of `consensus/misc/eip1559/eip1559.go`.

* `uint64` values (`GasLimit`, `GasUsed`, the protocol constants) are natural numbers;
  the one `uint64` multiplication of the file is reduced modulo `2 ^ 64`.
* `*big.Int` values (`BaseFee`) are `Option Int`: `none` is the nil pointer, and the
  integer is signed and unbounded, as `math/big` integers are.
* A run-time panic (nil dereference inside a `math/big` method, `big.Int.Div` by zero) is
  the result `none`.
-/

namespace Eip1559

/-- The fields of `types.Header` that the fee-market code reads. -/
structure Header where
  /-- Block height; only ever handed to `IsLondon`. -/
  number : Nat
  /-- The field `GasLimit uint64`. -/
  gasLimit : Nat
  /-- The field `GasUsed uint64`. -/
  gasUsed : Nat
  /-- The field `BaseFee *big.Int`; `none` is nil. -/
  baseFee : Option Int
  deriving DecidableEq, Repr

/-- The part of `params.ChainConfig` (and of package `params`) that the file consults.
None of it is defined in the file itself, so it is carried as data. -/
structure ChainConfig where
  /-- Height at which the fee market activates. -/
  londonBlock : Nat
  /-- Value of `config.ElasticityMultiplier()`. -/
  elasticityMultiplier : Nat
  /-- Value of `config.BaseFeeChangeDenominator()`. -/
  baseFeeChangeDenominator : Nat
  /-- Value of the package constant `params.InitialBaseFee`. -/
  initialBaseFee : Nat
  deriving DecidableEq, Repr

/-- Modelled from the spec: `config.IsLondon` is defined in package `params`, outside this
file. The spec describes it as the capability answering whether block number `n` is at or
after fee-market activation. -/
def IsLondon (config : ChainConfig) (num : Nat) : Bool :=
  decide (config.londonBlock ≤ num)

/-- Modelled from the spec: `config.GasTarget` is defined in package `params`, outside this
file. The spec gives `gasTarget = gasLimit / elasticityMultiplier`, truncating, for an
elasticity multiplier that is at least one. -/
def GasTarget (config : ChainConfig) (gasLimit : Nat) : Nat :=
  gasLimit / config.elasticityMultiplier

/-- Wrap-around bound of `uint64` arithmetic. -/
def uint64Mod : Nat := 2 ^ 64

/-- The method `big.Int.Div`: Euclidean division, with a run-time panic when the divisor
is zero. -/
def bigDiv (x y : Int) : Option Int :=
  if y = 0 then none else some (x / y)

/-- `CalcBaseFee` calculates the basefee of the header built on `parent`. -/
def CalcBaseFee (config : ChainConfig) (parent : Header) : Option Int :=
  -- If the current block is the first EIP-1559 block, return the InitialBaseFee.
  if !IsLondon config parent.number then
    some (config.initialBaseFee : Int)
  else
    let parentGasTarget := GasTarget config parent.gasLimit
    -- If the parent gasUsed is the same as the target, the baseFee remains unchanged.
    if parent.gasUsed = parentGasTarget then
      -- new(big.Int).Set(parent.BaseFee) dereferences its argument
      parent.baseFee
    else
      let denom : Int := (parentGasTarget : Int) * (config.baseFeeChangeDenominator : Int)
      if parent.gasUsed > parentGasTarget then
        -- Increase: use a slope of 3/8.
        let diff := parent.gasUsed - parentGasTarget
        match parent.baseFee with
        | none => none
        | some parentBaseFee =>
          match bigDiv ((diff : Int) * parentBaseFee * 3) denom with
          | none => none
          | some delta =>
            -- Enforce a minimum increase of 1.
            let delta := if delta < 1 then 1 else delta
            some (parentBaseFee + delta)
      else
        -- Decrease: use a slope of 1/8.
        let diff := parentGasTarget - parent.gasUsed
        match parent.baseFee with
        | none => none
        | some parentBaseFee =>
          match bigDiv ((diff : Int) * parentBaseFee) denom with
          | none => none
          | some delta =>
            let baseFee := parentBaseFee - delta
            some (if baseFee < 0 then 0 else baseFee)

/-- The errors `VerifyEIP1559Header` can return. `E` is the error type of the gas-limit
check, whose error is passed on as it is. -/
inductive VerifyError (E : Type) where
  /-- The error returned by `misc.VerifyGaslimit`. -/
  | gasLimit (err : E) : VerifyError E
  /-- The error "header is missing baseFee". -/
  | missingBaseFee : VerifyError E
  /-- The error "invalid baseFee: have %s, want %s, parentBaseFee %s, parentGasUsed %d". -/
  | invalidBaseFee (actual expected : Int) (parentBaseFee : Option Int)
      (parentGasUsed : Nat) : VerifyError E
  deriving DecidableEq, Repr

/-- The gas limit of the parent as `VerifyEIP1559Header` hands it to the gas-limit check:
multiplied by the elasticity multiplier (a `uint64` product) when the parent is not a
London block. -/
def normalizedParentGasLimit (config : ChainConfig) (parent : Header) : Nat :=
  if !IsLondon config parent.number then
    (parent.gasLimit * config.elasticityMultiplier) % uint64Mod
  else
    parent.gasLimit

/-- `VerifyEIP1559Header` verifies the header attributes changed in EIP-1559: the gas limit
check and the basefee check. `VerifyGaslimit` stands for `misc.VerifyGaslimit`, which is
defined outside this file: it returns `none` to accept and `some err` to reject. The result
is `none` for a panic, `some (Except.ok ())` for a nil error, `some (Except.error e)` for
the error `e`. -/
def VerifyEIP1559Header {E : Type} (VerifyGaslimit : Nat → Nat → Option E)
    (config : ChainConfig) (parent header : Header) :
    Option (Except (VerifyError E) Unit) :=
  -- Verify that the gas limit remains within allowed bounds
  let parentGasLimit := normalizedParentGasLimit config parent
  match VerifyGaslimit parentGasLimit header.gasLimit with
  | some err => some (Except.error (VerifyError.gasLimit err))
  | none =>
    -- Verify the header is not malformed
    match header.baseFee with
    | none => some (Except.error VerifyError.missingBaseFee)
    | some headerBaseFee =>
      -- Verify the baseFee is correct based on the parent header.
      match CalcBaseFee config parent with
      | none => none
      | some expectedBaseFee =>
        if headerBaseFee ≠ expectedBaseFee then
          some (Except.error
            (VerifyError.invalidBaseFee headerBaseFee expectedBaseFee parent.baseFee
              parent.gasUsed))
        else
          some (Except.ok ())

/-- Mainnet-like constants used by the concrete scenarios: activation at height 0,
elasticity multiplier 2, base-fee change denominator 8, initial base fee one gwei. -/
def scenarioConfig : ChainConfig :=
  { londonBlock := 0, elasticityMultiplier := 2, baseFeeChangeDenominator := 8,
    initialBaseFee := 1000000000 }

/-- Modelled from the spec: the error of the gas-limit bound check, which the spec names
`GasLimitOutOfBounds`. -/
inductive GasLimitError where
  /-- The candidate's gas limit is outside the allowed band or under the floor. -/
  | gasLimitOutOfBounds : GasLimitError
  deriving DecidableEq, Repr

/-- Modelled from the spec: the divisor of the elastic adjustment band of the gas limit,
which the spec gives as ±1/1024 of the parent (`params.GasLimitBoundDivisor`, defined
outside this file). -/
def GasLimitBoundDivisor : Nat := 1024

/-- Modelled from the spec: `misc.VerifyGaslimit` is defined in package `misc`, outside this
file. The spec describes it as the check that the candidate's gas limit does not diverge from
the (normalized) parent gas limit by as much as the band of 1/1024 of the parent, and is not
under an absolute floor; it fails with `GasLimitOutOfBounds`. The spec does not give the
value of the floor, which is the argument `minGasLimit`. The result is `none` to accept and
`some err` to reject. -/
def VerifyGaslimit (minGasLimit parentGasLimit headerGasLimit : Nat) : Option GasLimitError :=
  let diff :=
    if parentGasLimit < headerGasLimit then headerGasLimit - parentGasLimit
    else parentGasLimit - headerGasLimit
  let limit := parentGasLimit / GasLimitBoundDivisor
  if diff ≥ limit then
    some GasLimitError.gasLimitOutOfBounds
  else if headerGasLimit < minGasLimit then
    some GasLimitError.gasLimitOutOfBounds
  else
    none

/-- The upward adjustment as the specification words it: the floor of the exact quotient
`baseFee × diff × 3 / (gasTarget × baseFeeChangeDenominator)`. -/
def specIncreaseDelta (baseFee diff : Int) (gasTarget denominator : Nat) : Int :=
  ⌊((baseFee * diff * 3 : Int) : ℚ) / ((gasTarget * denominator : Nat) : ℚ)⌋

/-- The downward adjustment as the specification words it: the floor of the exact quotient
`baseFee × diff / (gasTarget × baseFeeChangeDenominator)`, without the factor 3. -/
def specDecreaseDelta (baseFee diff : Int) (gasTarget denominator : Nat) : Int :=
  ⌊((baseFee * diff : Int) : ℚ) / ((gasTarget * denominator : Nat) : ℚ)⌋

/-- The quotient `a / d` rounded down, as the specification writes `floor(a / d)`. -/
def specFloorDiv (a : Int) (d : Nat) : Int :=
  ⌊(a : ℚ) / (d : ℚ)⌋

/-! ## Auxiliary facts -/

theorem specIncreaseDelta_eq (baseFee diff : Int) (gasTarget denominator : Nat) :
    specIncreaseDelta baseFee diff gasTarget denominator
      = baseFee * diff * 3 / ((gasTarget : Int) * (denominator : Int)) := by
  unfold specIncreaseDelta
  rw [Rat.floor_intCast_div_natCast]
  push_cast
  rfl

theorem specDecreaseDelta_eq (baseFee diff : Int) (gasTarget denominator : Nat) :
    specDecreaseDelta baseFee diff gasTarget denominator
      = baseFee * diff / ((gasTarget : Int) * (denominator : Int)) := by
  unfold specDecreaseDelta
  rw [Rat.floor_intCast_div_natCast]
  push_cast
  rfl

theorem bigDiv_of_ne_zero (x y : Int) (hy : y ≠ 0) : bigDiv x y = some (x / y) := by
  simp [bigDiv, hy]

theorem denom_ne_zero {t d : Nat} (ht : 1 ≤ t) (hd : 1 ≤ d) : (t : Int) * (d : Int) ≠ 0 := by
  have h1 : (t : Int) ≠ 0 := by omega
  have h2 : (d : Int) ≠ 0 := by omega
  exact mul_ne_zero h1 h2

/-- Before activation the result is the constant, whatever the parent holds. -/
theorem CalcBaseFee_of_not_london (config : ChainConfig) (parent : Header)
    (h : IsLondon config parent.number = false) :
    CalcBaseFee config parent = some (config.initialBaseFee : Int) := by
  simp [CalcBaseFee, h]

/-- The branch `parent.GasUsed == parentGasTarget`. -/
theorem CalcBaseFee_at_target (config : ChainConfig) (parent : Header)
    (hl : IsLondon config parent.number = true)
    (ht : parent.gasUsed = GasTarget config parent.gasLimit) :
    CalcBaseFee config parent = parent.baseFee := by
  simp [CalcBaseFee, hl, ht]

/-- The branch `parent.GasUsed > parentGasTarget`, in the arithmetic of the code. -/
theorem CalcBaseFee_above_target (config : ChainConfig) (parent : Header) (b : Int)
    (hl : IsLondon config parent.number = true)
    (hb : parent.baseFee = some b)
    (hgt : GasTarget config parent.gasLimit < parent.gasUsed)
    (ht : 1 ≤ GasTarget config parent.gasLimit)
    (hd : 1 ≤ config.baseFeeChangeDenominator) :
    CalcBaseFee config parent
      = some (b + max 1
          (((parent.gasUsed - GasTarget config parent.gasLimit : Nat) : Int) * b * 3
            / ((GasTarget config parent.gasLimit : Int)
                * (config.baseFeeChangeDenominator : Int)))) := by
  have hne : parent.gasUsed ≠ GasTarget config parent.gasLimit := by omega
  have hdz := denom_ne_zero ht hd
  simp only [CalcBaseFee, hl, hb, hne, hgt, bigDiv_of_ne_zero _ _ hdz]
  simp only [Bool.not_true, Bool.false_eq_true, if_false, gt_iff_lt, if_true]
  congr 2
  split_ifs with h
  · exact (max_eq_left (by omega)).symm
  · exact (max_eq_right (by omega)).symm

/-- The branch `parent.GasUsed < parentGasTarget`, in the arithmetic of the code. -/
theorem CalcBaseFee_below_target (config : ChainConfig) (parent : Header) (b : Int)
    (hl : IsLondon config parent.number = true)
    (hb : parent.baseFee = some b)
    (hlt : parent.gasUsed < GasTarget config parent.gasLimit)
    (hd : 1 ≤ config.baseFeeChangeDenominator) :
    CalcBaseFee config parent
      = some (max
          (b - ((GasTarget config parent.gasLimit - parent.gasUsed : Nat) : Int) * b
            / ((GasTarget config parent.gasLimit : Int)
                * (config.baseFeeChangeDenominator : Int))) 0) := by
  have hne : parent.gasUsed ≠ GasTarget config parent.gasLimit := by omega
  have hngt : ¬ GasTarget config parent.gasLimit < parent.gasUsed := by omega
  have hdz := denom_ne_zero (show 1 ≤ GasTarget config parent.gasLimit by omega) hd
  simp only [CalcBaseFee, hl, hb, hne, hngt, bigDiv_of_ne_zero _ _ hdz]
  simp only [Bool.not_true, Bool.false_eq_true, if_false, gt_iff_lt]
  congr 1
  split_ifs with h
  · exact (max_eq_right (by omega)).symm
  · exact (max_eq_left (by omega)).symm

/-- With a zero gas target every parent that used gas makes `big.Int.Div` divide by zero. -/
theorem CalcBaseFee_zero_target (config : ChainConfig) (parent : Header)
    (hl : IsLondon config parent.number = true)
    (ht : GasTarget config parent.gasLimit = 0)
    (hgt : 0 < parent.gasUsed) :
    CalcBaseFee config parent = none := by
  have hne : parent.gasUsed ≠ 0 := by omega
  cases hb : parent.baseFee <;> simp [CalcBaseFee, hl, ht, hne, hgt, hb, bigDiv]

/-! ## CalcBaseFee -/

/-- C1. For a post-activation parent whose gasUsed equals gasTarget (gasLimit divided by
the elasticity multiplier, truncating), CalcBaseFee returns exactly the parent's base fee,
whatever that base fee and the base-fee change denominator are. -/
theorem calcBaseFee_at_target_unchanged (config : ChainConfig) (parent : Header) (b : Int)
    (hl : IsLondon config parent.number = true)
    (hb : parent.baseFee = some b)
    (ht : parent.gasUsed = parent.gasLimit / config.elasticityMultiplier) :
    CalcBaseFee config parent = some b := by
  rw [CalcBaseFee_at_target config parent hl ht, hb]

/-- Scenario of C1: gasLimit 20_000_000, gasUsed 10_000_000, base fee 1_000_000_000. -/
theorem calcBaseFee_at_target_unchanged_witness :
    CalcBaseFee scenarioConfig ⟨1, 20000000, 10000000, some 1000000000⟩
      = some 1000000000 :=
  calcBaseFee_at_target_unchanged scenarioConfig ⟨1, 20000000, 10000000, some 1000000000⟩
    1000000000 (by decide) rfl (by decide)

/-- C2 as stated fails: with gasLimit 1 and elasticity multiplier 2 the gas target is 0, the
parent with gasUsed 1 is over target, and CalcBaseFee returns no value at all (the division
by gasTarget × denominator = 0 panics), so no base fee above the parent's is returned. -/
theorem calcBaseFee_over_target_zero_target_fails :
    IsLondon scenarioConfig (Header.mk 1 1 1 (some 7)).number = true
      ∧ GasTarget scenarioConfig (Header.mk 1 1 1 (some 7)).gasLimit
          < (Header.mk 1 1 1 (some 7)).gasUsed
      ∧ CalcBaseFee scenarioConfig (Header.mk 1 1 1 (some 7)) = none
      ∧ ¬ ∃ r : Int, CalcBaseFee scenarioConfig (Header.mk 1 1 1 (some 7)) = some r ∧ 7 < r := by
  refine ⟨by decide, by decide, by decide, ?_⟩
  rintro ⟨r, hr, -⟩
  have h : CalcBaseFee scenarioConfig (Header.mk 1 1 1 (some 7)) = none := by decide
  rw [h] at hr
  cases hr

/-- C2, amended. For a post-activation parent with gasUsed > gasTarget and gasTarget ≥ 1
(denominator ≥ 1, base fee present), CalcBaseFee returns a base fee strictly greater than
the parent's. -/
theorem calcBaseFee_over_target_increases (config : ChainConfig) (parent : Header) (b : Int)
    (hl : IsLondon config parent.number = true)
    (hb : parent.baseFee = some b)
    (hd : 1 ≤ config.baseFeeChangeDenominator)
    (ht : 1 ≤ GasTarget config parent.gasLimit)
    (hgt : GasTarget config parent.gasLimit < parent.gasUsed) :
    ∃ r : Int, CalcBaseFee config parent = some r ∧ b < r := by
  refine ⟨_, CalcBaseFee_above_target config parent b hl hb hgt ht hd, ?_⟩
  have := le_max_left (1 : Int)
    (((parent.gasUsed - GasTarget config parent.gasLimit : Nat) : Int) * b * 3
      / ((GasTarget config parent.gasLimit : Int) * (config.baseFeeChangeDenominator : Int)))
  omega

/-- A parent barely over target with base fee 7: the fee rises to 8. -/
theorem calcBaseFee_over_target_increases_witness :
    ∃ r : Int, CalcBaseFee scenarioConfig ⟨1, 20000000, 10000001, some 7⟩ = some r ∧ 7 < r :=
  calcBaseFee_over_target_increases scenarioConfig ⟨1, 20000000, 10000001, some 7⟩ 7
    (by decide) rfl (by decide) (by decide) (by decide)

/-- C3. For a post-activation parent with gasUsed < gasTarget (base fee present and
unsigned, denominator ≥ 1, as the data model has them), CalcBaseFee returns a base fee
that is at most the parent's and is not negative. -/
theorem calcBaseFee_under_target_le (config : ChainConfig) (parent : Header) (b : Int)
    (hl : IsLondon config parent.number = true)
    (hb : parent.baseFee = some b)
    (hb0 : 0 ≤ b)
    (hd : 1 ≤ config.baseFeeChangeDenominator)
    (hlt : parent.gasUsed < GasTarget config parent.gasLimit) :
    ∃ r : Int, CalcBaseFee config parent = some r ∧ r ≤ b ∧ 0 ≤ r := by
  refine ⟨_, CalcBaseFee_below_target config parent b hl hb hlt hd, ?_, le_max_right _ _⟩
  have hnum : (0 : Int) ≤ ((GasTarget config parent.gasLimit - parent.gasUsed : Nat) : Int) * b :=
    mul_nonneg (Int.ofNat_nonneg _) hb0
  have hden : (0 : Int) ≤ (GasTarget config parent.gasLimit : Int)
      * (config.baseFeeChangeDenominator : Int) :=
    mul_nonneg (Int.ofNat_nonneg _) (Int.ofNat_nonneg _)
  have hq := Int.ediv_nonneg hnum hden
  exact max_le (by omega) hb0

/-- A half-empty parent: the fee falls from 1_000_000_000, and stays non-negative. -/
theorem calcBaseFee_under_target_le_witness :
    ∃ r : Int, CalcBaseFee scenarioConfig ⟨1, 20000000, 5000000, some 1000000000⟩ = some r
      ∧ r ≤ 1000000000 ∧ 0 ≤ r :=
  calcBaseFee_under_target_le scenarioConfig ⟨1, 20000000, 5000000, some 1000000000⟩
    1000000000 (by decide) rfl (by decide) (by decide) (by decide)

/-- C4. For a parent whose block number is before the activation height, CalcBaseFee
returns the constant initialBaseFee, independently of the parent's gasLimit, gasUsed and
baseFee (an absent baseFee included). -/
theorem calcBaseFee_before_activation (config : ChainConfig) (parent : Header)
    (h : parent.number < config.londonBlock) :
    CalcBaseFee config parent = some (config.initialBaseFee : Int) := by
  apply CalcBaseFee_of_not_london
  simp [IsLondon, h]

/-- A parent at height 4 under activation height 5, with no base fee and gasUsed above its
gasLimit: the result is the initial base fee. -/
theorem calcBaseFee_before_activation_witness :
    CalcBaseFee ⟨5, 2, 8, 1000000000⟩ ⟨4, 0, 17, none⟩ = some 1000000000 :=
  calcBaseFee_before_activation ⟨5, 2, 8, 1000000000⟩ ⟨4, 0, 17, none⟩ (by decide)

/-- C5. For a post-activation parent with gasUsed > gasTarget and gasTarget ≥ 1
(denominator ≥ 1, base fee present), CalcBaseFee returns
baseFee + max(1, floor(baseFee × (gasUsed − gasTarget) × 3 / (gasTarget × denominator))),
the product being taken in unbounded integers. -/
theorem calcBaseFee_over_target_formula (config : ChainConfig) (parent : Header) (b : Int)
    (hl : IsLondon config parent.number = true)
    (hb : parent.baseFee = some b)
    (hd : 1 ≤ config.baseFeeChangeDenominator)
    (ht : 1 ≤ GasTarget config parent.gasLimit)
    (hgt : GasTarget config parent.gasLimit < parent.gasUsed) :
    CalcBaseFee config parent
      = some (b + max 1
          (specIncreaseDelta b
            ((parent.gasUsed : Int) - (GasTarget config parent.gasLimit : Int))
            (GasTarget config parent.gasLimit) config.baseFeeChangeDenominator)) := by
  rw [CalcBaseFee_above_target config parent b hl hb hgt ht hd, specIncreaseDelta_eq,
    Nat.cast_sub hgt.le, mul_comm b]

/-- Scenario of C5: elasticity 2, denominator 8, gasLimit 20_000_000, gasUsed 15_000_000,
base fee 1_000_000_000 give 1_187_500_000. -/
theorem calcBaseFee_over_target_formula_witness :
    CalcBaseFee scenarioConfig ⟨1, 20000000, 15000000, some 1000000000⟩
        = some (1000000000 + max 1 (specIncreaseDelta 1000000000 (15000000 - 10000000)
            10000000 8))
      ∧ specIncreaseDelta 1000000000 (15000000 - 10000000) 10000000 8 = 187500000
      ∧ CalcBaseFee scenarioConfig ⟨1, 20000000, 15000000, some 1000000000⟩
        = some 1187500000 :=
  ⟨calcBaseFee_over_target_formula scenarioConfig ⟨1, 20000000, 15000000, some 1000000000⟩
      1000000000 (by decide) rfl (by decide) (by decide) (by decide),
    by rw [specIncreaseDelta_eq]; decide, by decide⟩

/-- C6. For a post-activation parent with gasUsed < gasTarget (denominator ≥ 1, base fee
present), CalcBaseFee returns
max(baseFee − floor(baseFee × (gasTarget − gasUsed) / (gasTarget × denominator)), 0),
with no factor 3. -/
theorem calcBaseFee_under_target_formula (config : ChainConfig) (parent : Header) (b : Int)
    (hl : IsLondon config parent.number = true)
    (hb : parent.baseFee = some b)
    (hd : 1 ≤ config.baseFeeChangeDenominator)
    (hlt : parent.gasUsed < GasTarget config parent.gasLimit) :
    CalcBaseFee config parent
      = some (max
          (b - specDecreaseDelta b
            ((GasTarget config parent.gasLimit : Int) - (parent.gasUsed : Int))
            (GasTarget config parent.gasLimit) config.baseFeeChangeDenominator) 0) := by
  rw [CalcBaseFee_below_target config parent b hl hb hlt hd, specDecreaseDelta_eq,
    Nat.cast_sub hlt.le, mul_comm b]

/-- Scenario of C6: elasticity 2, denominator 8, gasLimit 20_000_000, gasUsed 5_000_000,
base fee 1_000_000_000 give 937_500_000. -/
theorem calcBaseFee_under_target_formula_witness :
    CalcBaseFee scenarioConfig ⟨1, 20000000, 5000000, some 1000000000⟩
        = some (max (1000000000 - specDecreaseDelta 1000000000 (10000000 - 5000000)
            10000000 8) 0)
      ∧ specDecreaseDelta 1000000000 (10000000 - 5000000) 10000000 8 = 62500000
      ∧ CalcBaseFee scenarioConfig ⟨1, 20000000, 5000000, some 1000000000⟩
        = some 937500000 :=
  ⟨calcBaseFee_under_target_formula scenarioConfig ⟨1, 20000000, 5000000, some 1000000000⟩
      1000000000 (by decide) rfl (by decide) (by decide),
    by rw [specDecreaseDelta_eq]; decide, by decide⟩

/-! ## VerifyEIP1559Header -/

/-- The three ways `VerifyEIP1559Header` can end, by what it met on the way. -/
theorem VerifyEIP1559Header_cases {E : Type} (check : Nat → Nat → Option E)
    (config : ChainConfig) (parent header : Header) :
    (∃ err, check (normalizedParentGasLimit config parent) header.gasLimit = some err
        ∧ VerifyEIP1559Header check config parent header
            = some (Except.error (VerifyError.gasLimit err)))
    ∨ (check (normalizedParentGasLimit config parent) header.gasLimit = none
        ∧ header.baseFee = none
        ∧ VerifyEIP1559Header check config parent header
            = some (Except.error VerifyError.missingBaseFee))
    ∨ (∃ hb, check (normalizedParentGasLimit config parent) header.gasLimit = none
        ∧ header.baseFee = some hb ∧ CalcBaseFee config parent = none
        ∧ VerifyEIP1559Header check config parent header = none)
    ∨ (∃ hb want, check (normalizedParentGasLimit config parent) header.gasLimit = none
        ∧ header.baseFee = some hb ∧ CalcBaseFee config parent = some want ∧ hb ≠ want
        ∧ VerifyEIP1559Header check config parent header
            = some (Except.error
                (VerifyError.invalidBaseFee hb want parent.baseFee parent.gasUsed)))
    ∨ (∃ hb, check (normalizedParentGasLimit config parent) header.gasLimit = none
        ∧ header.baseFee = some hb ∧ CalcBaseFee config parent = some hb
        ∧ VerifyEIP1559Header check config parent header = some (Except.ok ())) := by
  cases hc : check (normalizedParentGasLimit config parent) header.gasLimit with
  | some err => exact Or.inl ⟨err, rfl, by simp [VerifyEIP1559Header, hc]⟩
  | none =>
    cases hh : header.baseFee with
    | none => exact Or.inr (Or.inl ⟨rfl, rfl, by simp [VerifyEIP1559Header, hc, hh]⟩)
    | some hb =>
      cases hx : CalcBaseFee config parent with
      | none =>
        exact Or.inr (Or.inr (Or.inl ⟨hb, rfl, rfl, rfl,
          by simp [VerifyEIP1559Header, hc, hh, hx]⟩))
      | some want =>
        by_cases hne : hb = want
        · subst hne
          exact Or.inr (Or.inr (Or.inr (Or.inr ⟨hb, rfl, rfl, rfl,
            by simp [VerifyEIP1559Header, hc, hh, hx]⟩)))
        · exact Or.inr (Or.inr (Or.inr (Or.inl ⟨hb, want, rfl, rfl, rfl, hne,
            by simp [VerifyEIP1559Header, hc, hh, hx, hne]⟩)))

/-- `VerifyEIP1559Header` ends in a panic exactly when the check accepts, the candidate
carries a base fee and `CalcBaseFee` panics on the parent. -/
theorem VerifyEIP1559Header_none_iff {E : Type} (check : Nat → Nat → Option E)
    (config : ChainConfig) (parent header : Header) :
    VerifyEIP1559Header check config parent header = none
      ↔ (check (normalizedParentGasLimit config parent) header.gasLimit = none
          ∧ header.baseFee ≠ none ∧ CalcBaseFee config parent = none) := by
  rcases VerifyEIP1559Header_cases check config parent header with
    ⟨err, hc, hv⟩ | ⟨hc, hh, hv⟩ | ⟨hb, hc, hh, hx, hv⟩ | ⟨hb, want, hc, hh, hx, hne, hv⟩
      | ⟨hb, hc, hh, hx, hv⟩
  · simp [hv, hc]
  · simp [hv, hc, hh]
  · simp [hv, hc, hh, hx]
  · simp [hv, hc, hh, hx]
  · simp [hv, hc, hh, hx]

/-- C8. When the gas-limit check passes and the candidate's base fee is present, a candidate
base fee that differs from the value CalcBaseFee returns for the parent, by any amount,
makes VerifyEIP1559Header return the base-fee-mismatch error, which carries the candidate's
value, the expected value, and the parent's baseFee and gasUsed. -/
theorem verifyEIP1559Header_mismatch {E : Type} (check : Nat → Nat → Option E)
    (config : ChainConfig) (parent header : Header) (actual expected : Int)
    (hc : check (normalizedParentGasLimit config parent) header.gasLimit = none)
    (hh : header.baseFee = some actual)
    (hx : CalcBaseFee config parent = some expected)
    (hne : actual ≠ expected) :
    VerifyEIP1559Header check config parent header
      = some (Except.error
          (VerifyError.invalidBaseFee actual expected parent.baseFee parent.gasUsed)) := by
  simp [VerifyEIP1559Header, hc, hh, hx, hne]

/-- A candidate one unit above the expected 1_187_500_000 is rejected with the mismatch
error. -/
theorem verifyEIP1559Header_mismatch_witness :
    VerifyEIP1559Header (VerifyGaslimit 5000) scenarioConfig
      ⟨1, 20000000, 15000000, some 1000000000⟩ ⟨2, 20000000, 0, some 1187500001⟩
      = some (Except.error
          (VerifyError.invalidBaseFee 1187500001 1187500000 (some 1000000000) 15000000)) :=
  verifyEIP1559Header_mismatch (VerifyGaslimit 5000) scenarioConfig
    ⟨1, 20000000, 15000000, some 1000000000⟩ ⟨2, 20000000, 0, some 1187500001⟩
    1187500001 1187500000 (by decide) rfl (by decide) (by decide)

/-- C9. For a candidate whose baseFee is absent, VerifyEIP1559Header never returns success;
when the gas-limit check passes it returns the missing-base-fee error; and CalcBaseFee is
not consulted: the result is the same for every parent with the same number and gasLimit,
whatever its baseFee and gasUsed. -/
theorem verifyEIP1559Header_missing_baseFee {E : Type} (check : Nat → Nat → Option E)
    (config : ChainConfig) (parent header : Header)
    (hh : header.baseFee = none) :
    VerifyEIP1559Header check config parent header ≠ some (Except.ok ())
      ∧ (check (normalizedParentGasLimit config parent) header.gasLimit = none
          → VerifyEIP1559Header check config parent header
              = some (Except.error VerifyError.missingBaseFee))
      ∧ ∀ (parentBaseFee : Option Int) (parentGasUsed : Nat),
          VerifyEIP1559Header check config
              ⟨parent.number, parent.gasLimit, parentGasUsed, parentBaseFee⟩ header
            = VerifyEIP1559Header check config parent header := by
  refine ⟨?_, ?_, ?_⟩
  · cases hc : check (normalizedParentGasLimit config parent) header.gasLimit <;>
      simp [VerifyEIP1559Header, hc, hh]
  · intro hc
    simp [VerifyEIP1559Header, hc, hh]
  · intro pb pg
    simp [VerifyEIP1559Header, normalizedParentGasLimit, hh]

/-- A candidate without base fee whose gas limit (unchanged, floor 5000) passes the check:
the verdict is the missing-base-fee error. -/
theorem verifyEIP1559Header_missing_baseFee_witness :
    VerifyEIP1559Header (VerifyGaslimit 5000) scenarioConfig
      ⟨1, 20000000, 15000000, some 1000000000⟩ ⟨2, 20000000, 0, none⟩
        = some (Except.error VerifyError.missingBaseFee) :=
  (verifyEIP1559Header_missing_baseFee (VerifyGaslimit 5000) scenarioConfig
    ⟨1, 20000000, 15000000, some 1000000000⟩ ⟨2, 20000000, 0, none⟩ rfl).2.1 (by decide)

/-- C10. When the gas-limit check rejects (normalized parent gas limit, candidate gas
limit), VerifyEIP1559Header returns exactly the error of that check, whatever the
candidate's baseFee is (absent, matching or mismatching). -/
theorem verifyEIP1559Header_gasLimit_error {E : Type} (check : Nat → Nat → Option E)
    (config : ChainConfig) (parent header : Header) (err : E)
    (hc : check (normalizedParentGasLimit config parent) header.gasLimit = some err) :
    VerifyEIP1559Header check config parent header
      = some (Except.error (VerifyError.gasLimit err)) := by
  simp [VerifyEIP1559Header, hc]

/-- A candidate whose gas limit 30_000_000 is outside the band around the parent's
20_000_000, and which has no base fee: the gas-limit error is the one returned, not the
missing-base-fee error. -/
theorem verifyEIP1559Header_gasLimit_error_witness :
    VerifyEIP1559Header (VerifyGaslimit 5000) scenarioConfig
      ⟨1, 20000000, 10000000, some 1000000000⟩ ⟨2, 30000000, 0, none⟩
        = some (Except.error (VerifyError.gasLimit GasLimitError.gasLimitOutOfBounds)) :=
  verifyEIP1559Header_gasLimit_error (VerifyGaslimit 5000) scenarioConfig
    ⟨1, 20000000, 10000000, some 1000000000⟩ ⟨2, 30000000, 0, none⟩
    GasLimitError.gasLimitOutOfBounds (by decide)

/-! ## The gas limit handed to the gas-limit check -/

/-- C11 as stated fails: a parent before activation with gasLimit 2^63 and elasticity
multiplier 2 has the integer product 2^64, but the value handed to the gas-limit check
(observed through a check that reports its first argument) is 0. -/
theorem verifyEIP1559Header_parentGasLimit_wraps :
    (Header.mk 4 9223372036854775808 0 none).number
        < (ChainConfig.mk 5 2 8 1000000000).londonBlock
      ∧ (Header.mk 4 9223372036854775808 0 none).gasLimit < 2 ^ 64
      ∧ VerifyEIP1559Header (fun parentGasLimit _ => some parentGasLimit)
          (ChainConfig.mk 5 2 8 1000000000) (Header.mk 4 9223372036854775808 0 none)
          (Header.mk 5 30000000 0 (some 1000000000))
          = some (Except.error (VerifyError.gasLimit 0))
      ∧ (0 : Nat) ≠ (Header.mk 4 9223372036854775808 0 none).gasLimit
          * (ChainConfig.mk 5 2 8 1000000000).elasticityMultiplier := by
  refine ⟨by decide, by decide, rfl, by decide⟩

/-- C11, amended. The parent gas limit that VerifyEIP1559Header hands to the gas-limit check
(observed through a check that reports its first argument) is, for a parent before
activation, the product parent.gasLimit × elasticityMultiplier reduced modulo 2^64, which is
the integer product whenever that product is below 2^64; for a parent at or after
activation it is parent.gasLimit, unmodified. -/
theorem verifyEIP1559Header_parentGasLimit (config : ChainConfig) (parent header : Header) :
    VerifyEIP1559Header (fun parentGasLimit _ => some parentGasLimit) config parent header
        = some (Except.error (VerifyError.gasLimit (normalizedParentGasLimit config parent)))
      ∧ (parent.number < config.londonBlock →
          normalizedParentGasLimit config parent
            = (parent.gasLimit * config.elasticityMultiplier) % 2 ^ 64)
      ∧ (parent.number < config.londonBlock →
          parent.gasLimit * config.elasticityMultiplier < 2 ^ 64 →
          normalizedParentGasLimit config parent
            = parent.gasLimit * config.elasticityMultiplier)
      ∧ (config.londonBlock ≤ parent.number →
          normalizedParentGasLimit config parent = parent.gasLimit) := by
  refine ⟨by simp [VerifyEIP1559Header], ?_, ?_, ?_⟩
  · intro h
    simp [normalizedParentGasLimit, IsLondon, h, uint64Mod]
  · intro h hlt
    have hnl : IsLondon config parent.number = false := by simp [IsLondon, h]
    simp only [normalizedParentGasLimit, hnl, uint64Mod, Bool.not_false, if_true]
    exact Nat.mod_eq_of_lt hlt
  · intro h
    simp [normalizedParentGasLimit, IsLondon, h]

/-- A parent before activation with gasLimit 15_000_000 and multiplier 2: the check is handed
30_000_000. -/
theorem verifyEIP1559Header_parentGasLimit_witness :
    normalizedParentGasLimit (ChainConfig.mk 5 2 8 1000000000) (Header.mk 4 15000000 0 none)
      = 15000000 * 2 :=
  (verifyEIP1559Header_parentGasLimit (ChainConfig.mk 5 2 8 1000000000)
    (Header.mk 4 15000000 0 none) (Header.mk 5 30000000 0 (some 1000000000))).2.2.1
    (by decide) (by decide)

/-! ## Totality of CalcBaseFee -/

/-- Away from the target, a zero `gasTarget × denominator` makes `big.Int.Div` panic. -/
theorem CalcBaseFee_zero_denom (config : ChainConfig) (parent : Header)
    (hl : IsLondon config parent.number = true)
    (hne : parent.gasUsed ≠ GasTarget config parent.gasLimit)
    (hz : GasTarget config parent.gasLimit = 0 ∨ config.baseFeeChangeDenominator = 0) :
    CalcBaseFee config parent = none := by
  have hden : (GasTarget config parent.gasLimit : Int)
      * (config.baseFeeChangeDenominator : Int) = 0 := by
    rcases hz with h | h <;> simp [h]
  cases hb : parent.baseFee <;>
    by_cases hgt : GasTarget config parent.gasLimit < parent.gasUsed <;>
      simp [CalcBaseFee, hl, hne, hgt, hb, bigDiv, hden]

/-- C12 as stated fails: a post-activation parent with a present base fee, gasLimit 0 (gas
target 0) and gasUsed 21_000 makes CalcBaseFee divide by zero; no value is returned. -/
theorem calcBaseFee_not_total :
    IsLondon scenarioConfig (Header.mk 1 0 21000 (some 1000000000)).number = true
      ∧ (Header.mk 1 0 21000 (some 1000000000)).baseFee = some 1000000000
      ∧ GasTarget scenarioConfig (Header.mk 1 0 21000 (some 1000000000)).gasLimit = 0
      ∧ CalcBaseFee scenarioConfig (Header.mk 1 0 21000 (some 1000000000)) = none := by
  refine ⟨by decide, rfl, by decide, by decide⟩

/-- C12, amended. For a post-activation parent with a present base fee and any unsigned
gasLimit and gasUsed (gasUsed > gasLimit included), CalcBaseFee returns a value exactly when
gasUsed equals gasTarget or both gasTarget and the denominator are at least 1; with gasTarget
0 and gasUsed > 0 the division by zero is reached. -/
theorem calcBaseFee_returns_iff (config : ChainConfig) (parent : Header) (b : Int)
    (hl : IsLondon config parent.number = true)
    (hb : parent.baseFee = some b) :
    (∃ r : Int, CalcBaseFee config parent = some r)
      ↔ (parent.gasUsed = GasTarget config parent.gasLimit
          ∨ (1 ≤ GasTarget config parent.gasLimit ∧ 1 ≤ config.baseFeeChangeDenominator)) := by
  constructor
  · rintro ⟨r, hr⟩
    by_contra hcon
    push_neg at hcon
    have hz : GasTarget config parent.gasLimit = 0 ∨ config.baseFeeChangeDenominator = 0 := by
      by_cases h0 : GasTarget config parent.gasLimit = 0
      · exact Or.inl h0
      · exact Or.inr (by have := hcon.2 (by omega); omega)
    rw [CalcBaseFee_zero_denom config parent hl hcon.1 hz] at hr
    cases hr
  · rintro (heq | ⟨ht, hd⟩)
    · exact ⟨b, by rw [CalcBaseFee_at_target config parent hl heq, hb]⟩
    · rcases Nat.lt_trichotomy parent.gasUsed (GasTarget config parent.gasLimit) with
        hlt | heq | hgt
      · exact ⟨_, CalcBaseFee_below_target config parent b hl hb hlt hd⟩
      · exact ⟨b, by rw [CalcBaseFee_at_target config parent hl heq, hb]⟩
      · exact ⟨_, CalcBaseFee_above_target config parent b hl hb hgt ht hd⟩

/-- A parent that used more gas than its limit (gasLimit 20, gasUsed 25, gas target 10): a
value is returned. -/
theorem calcBaseFee_returns_iff_witness :
    ∃ r : Int, CalcBaseFee scenarioConfig ⟨1, 20, 25, some 100⟩ = some r :=
  (calcBaseFee_returns_iff scenarioConfig ⟨1, 20, 25, some 100⟩ 100 (by decide) rfl).mpr
    (Or.inr ⟨by decide, by decide⟩)

/-! ## Integer division facts used by the bounds -/

theorem gasDenom_pos {t d : Nat} (ht : 1 ≤ t) (hd : 1 ≤ d) : (0 : Int) < (t : Int) * (d : Int) := by
  have h1 : (0 : Int) < (t : Int) := by omega
  have h2 : (0 : Int) < (d : Int) := by omega
  exact mul_pos h1 h2

/-- Tripling the numerator triples the quotient up to a remainder of at most 2. -/
theorem three_mul_ediv_bounds (x m : Int) (hm : 0 < m) :
    3 * (x / m) ≤ x * 3 / m ∧ x * 3 / m ≤ 3 * (x / m) + 2 := by
  have h1 : x / m * m ≤ x := Int.ediv_mul_le x (ne_of_gt hm)
  have h2 : x < (x / m + 1) * m := Int.lt_ediv_add_one_mul_self x hm
  constructor
  · rw [Int.le_ediv_iff_mul_le hm]
    nlinarith
  · have h3 : x * 3 / m < 3 * (x / m) + 3 := by
      rw [Int.ediv_lt_iff_lt_mul hm]
      nlinarith
    omega

/-- The downward adjustment lies between 0 and `baseFee / denominator`. -/
theorem decrease_delta_bounds (b : Int) (diff t d : Nat) (hb0 : 0 ≤ b) (hdt : diff ≤ t)
    (ht : 1 ≤ t) (hd : 1 ≤ d) :
    0 ≤ (diff : Int) * b / ((t : Int) * (d : Int))
      ∧ (diff : Int) * b / ((t : Int) * (d : Int)) ≤ b / (d : Int)
      ∧ b / (d : Int) ≤ b := by
  have hm := gasDenom_pos ht hd
  have ht0 : (0 : Int) < (t : Int) := by omega
  refine ⟨Int.ediv_nonneg (mul_nonneg (Int.ofNat_nonneg _) hb0) hm.le, ?_,
    Int.ediv_le_self _ hb0⟩
  have hle : (diff : Int) * b ≤ (t : Int) * b :=
    mul_le_mul_of_nonneg_right (by exact_mod_cast hdt) hb0
  calc (diff : Int) * b / ((t : Int) * (d : Int))
      ≤ (t : Int) * b / ((t : Int) * (d : Int)) := Int.ediv_le_ediv hm hle
    _ = b / (d : Int) := Int.mul_ediv_mul_of_pos b (d : Int) ht0

theorem specFloorDiv_eq (a : Int) (d : Nat) : specFloorDiv a d = a / (d : Int) := by
  unfold specFloorDiv
  exact Rat.floor_intCast_div_natCast a d

/-- Over target, for a parent given by its fields. -/
theorem CalcBaseFee_mk_above (config : ChainConfig) (n gl u : Nat) (b : Int)
    (hl : IsLondon config n = true)
    (hgt : GasTarget config gl < u)
    (ht : 1 ≤ GasTarget config gl)
    (hd : 1 ≤ config.baseFeeChangeDenominator) :
    CalcBaseFee config ⟨n, gl, u, some b⟩
      = some (b + max 1 (((u - GasTarget config gl : Nat) : Int) * b * 3
          / ((GasTarget config gl : Int) * (config.baseFeeChangeDenominator : Int)))) :=
  CalcBaseFee_above_target config ⟨n, gl, u, some b⟩ b hl rfl hgt ht hd

/-- At target, for a parent given by its fields. -/
theorem CalcBaseFee_mk_at (config : ChainConfig) (n gl u : Nat) (b : Int)
    (hl : IsLondon config n = true)
    (heq : u = GasTarget config gl) :
    CalcBaseFee config ⟨n, gl, u, some b⟩ = some b :=
  CalcBaseFee_at_target config ⟨n, gl, u, some b⟩ hl heq

/-- Under target with an unsigned base fee the zero floor is idle, for a parent given by its
fields. -/
theorem CalcBaseFee_mk_below (config : ChainConfig) (n gl u : Nat) (b : Int)
    (hl : IsLondon config n = true)
    (hb0 : 0 ≤ b)
    (hlt : u < GasTarget config gl)
    (hd : 1 ≤ config.baseFeeChangeDenominator) :
    CalcBaseFee config ⟨n, gl, u, some b⟩
      = some (b - ((GasTarget config gl - u : Nat) : Int) * b
          / ((GasTarget config gl : Int) * (config.baseFeeChangeDenominator : Int))) := by
  have h : CalcBaseFee config ⟨n, gl, u, some b⟩
      = some (max (b - ((GasTarget config gl - u : Nat) : Int) * b
          / ((GasTarget config gl : Int) * (config.baseFeeChangeDenominator : Int))) 0) :=
    CalcBaseFee_below_target config ⟨n, gl, u, some b⟩ b hl rfl hlt hd
  have hbd := decrease_delta_bounds b (GasTarget config gl - u) (GasTarget config gl)
    config.baseFeeChangeDenominator hb0 (Nat.sub_le _ _) (by omega) hd
  rw [h]
  congr 1
  exact max_eq_left (by omega)

/-! ## Size of the per-block change -/

/-- C13 as stated fails: with elasticity 2 and denominator 8, a full parent (gasLimit and
gasUsed 20_000_000, base fee 1_000_000_000) raises the fee by 375_000_000, three times the
claimed bound max(1, floor(1_000_000_000 / 8)) = 125_000_000. -/
theorem calcBaseFee_change_exceeds_eighth :
    (Header.mk 1 20000000 20000000 (some 1000000000)).gasUsed
        ≤ (Header.mk 1 20000000 20000000 (some 1000000000)).gasLimit
      ∧ 1 ≤ GasTarget scenarioConfig (Header.mk 1 20000000 20000000 (some 1000000000)).gasLimit
      ∧ CalcBaseFee scenarioConfig (Header.mk 1 20000000 20000000 (some 1000000000))
          = some 1375000000
      ∧ specFloorDiv 1000000000 scenarioConfig.baseFeeChangeDenominator = 125000000
      ∧ ¬ ((1375000000 : Int) - 1000000000
            ≤ max 1 (specFloorDiv 1000000000 scenarioConfig.baseFeeChangeDenominator)) := by
  have hf : specFloorDiv 1000000000 scenarioConfig.baseFeeChangeDenominator = 125000000 := by
    rw [specFloorDiv_eq]; decide
  refine ⟨by decide, by decide, by decide, hf, ?_⟩
  rw [hf]
  decide

/-- C13, amended. For a post-activation parent with gasUsed ≤ gasLimit and gasTarget ≥ 1
(base fee present and unsigned, denominator ≥ 1), the value returned by CalcBaseFee lies at
most floor(baseFee / denominator) below parent.baseFee and at most
max(1, floor(baseFee × (gasLimit − gasTarget) × 3 / (gasTarget × denominator))) above it;
when gasLimit is a multiple of the elasticity multiplier the upper bound is
max(1, floor(3 × (elasticityMultiplier − 1) × baseFee / denominator)). -/
theorem calcBaseFee_change_bounds (config : ChainConfig) (parent : Header) (b : Int)
    (hl : IsLondon config parent.number = true)
    (hb : parent.baseFee = some b)
    (hb0 : 0 ≤ b)
    (hd : 1 ≤ config.baseFeeChangeDenominator)
    (ht : 1 ≤ GasTarget config parent.gasLimit)
    (hu : parent.gasUsed ≤ parent.gasLimit) :
    ∃ r : Int, CalcBaseFee config parent = some r
      ∧ b - specFloorDiv b config.baseFeeChangeDenominator ≤ r
      ∧ r ≤ b + max 1 (specIncreaseDelta b
          ((parent.gasLimit : Int) - (GasTarget config parent.gasLimit : Int))
          (GasTarget config parent.gasLimit) config.baseFeeChangeDenominator)
      ∧ (parent.gasLimit = config.elasticityMultiplier * GasTarget config parent.gasLimit →
          r ≤ b + max 1 (specFloorDiv (3 * ((config.elasticityMultiplier : Int) - 1) * b)
            config.baseFeeChangeDenominator)) := by
  obtain ⟨n, gl, u, pb⟩ := parent
  simp only at hl hb ht hu ⊢
  subst hb
  rw [specFloorDiv_eq, specFloorDiv_eq, specIncreaseDelta_eq]
  have hm := gasDenom_pos ht hd
  have ht0 : (0 : Int) < (GasTarget config gl : Int) := by omega
  have hfl := decrease_delta_bounds b (GasTarget config gl) (GasTarget config gl)
    config.baseFeeChangeDenominator hb0 le_rfl ht hd
  have hglT : GasTarget config gl ≤ gl := by
    unfold GasTarget; exact Nat.div_le_self _ _
  have hcap : (0 : Int) ≤ b * ((gl : Int) - (GasTarget config gl : Int)) * 3
      / ((GasTarget config gl : Int) * (config.baseFeeChangeDenominator : Int)) :=
    Int.ediv_nonneg (by have : (0 : Int) ≤ (gl : Int) - (GasTarget config gl : Int) := by omega
                        positivity) hm.le
  -- the upper bound for a gas limit that is a multiple of the elasticity multiplier
  have hmult : gl = config.elasticityMultiplier * GasTarget config gl →
      b * ((gl : Int) - (GasTarget config gl : Int)) * 3
        / ((GasTarget config gl : Int) * (config.baseFeeChangeDenominator : Int))
        = 3 * ((config.elasticityMultiplier : Int) - 1) * b
          / (config.baseFeeChangeDenominator : Int) := by
    intro hgl
    have hcast : (gl : Int)
        = (config.elasticityMultiplier : Int) * (GasTarget config gl : Int) := by
      exact_mod_cast hgl
    have hnum : b * ((gl : Int) - (GasTarget config gl : Int)) * 3
        = (GasTarget config gl : Int) * (3 * ((config.elasticityMultiplier : Int) - 1) * b) := by
      rw [hcast]; ring
    rw [hnum, Int.mul_ediv_mul_of_pos _ _ ht0]
  rcases Nat.lt_trichotomy u (GasTarget config gl) with hlt | heq | hgt
  · have hbd := decrease_delta_bounds b (GasTarget config gl - u) (GasTarget config gl)
      config.baseFeeChangeDenominator hb0 (Nat.sub_le _ _) ht hd
    refine ⟨_, CalcBaseFee_mk_below config n gl u b hl hb0 hlt hd, by omega, ?_, ?_⟩
    · have := le_max_left (1 : Int) (b * ((gl : Int) - (GasTarget config gl : Int)) * 3
        / ((GasTarget config gl : Int) * (config.baseFeeChangeDenominator : Int)))
      omega
    · intro hgl
      have := le_max_left (1 : Int) (3 * ((config.elasticityMultiplier : Int) - 1) * b
        / (config.baseFeeChangeDenominator : Int))
      omega
  · refine ⟨b, CalcBaseFee_mk_at config n gl u b hl heq, by omega, ?_, ?_⟩
    · have := le_max_left (1 : Int) (b * ((gl : Int) - (GasTarget config gl : Int)) * 3
        / ((GasTarget config gl : Int) * (config.baseFeeChangeDenominator : Int)))
      omega
    · intro hgl
      have := le_max_left (1 : Int) (3 * ((config.elasticityMultiplier : Int) - 1) * b
        / (config.baseFeeChangeDenominator : Int))
      omega
  · have hnum : ((u - GasTarget config gl : Nat) : Int) * b * 3
        ≤ b * ((gl : Int) - (GasTarget config gl : Int)) * 3 := by
      have h1 : ((u - GasTarget config gl : Nat) : Int)
          ≤ (gl : Int) - (GasTarget config gl : Int) := by omega
      nlinarith
    have hq := Int.ediv_le_ediv hm hnum
    have hmax := max_le_max (le_refl (1 : Int)) hq
    refine ⟨_, CalcBaseFee_mk_above config n gl u b hl hgt ht hd, ?_, ?_, ?_⟩
    · have := le_max_left (1 : Int) (((u - GasTarget config gl : Nat) : Int) * b * 3
        / ((GasTarget config gl : Int) * (config.baseFeeChangeDenominator : Int)))
      omega
    · omega
    · intro hgl
      rw [← hmult hgl]
      omega

/-- The full parent of the scenario (gasLimit and gasUsed 20_000_000, base fee
1_000_000_000): the returned fee is within the amended bounds. -/
theorem calcBaseFee_change_bounds_witness :
    ∃ r : Int, CalcBaseFee scenarioConfig ⟨1, 20000000, 20000000, some 1000000000⟩ = some r
      ∧ 1000000000 - specFloorDiv 1000000000 8 ≤ r
      ∧ r ≤ 1000000000 + max 1 (specIncreaseDelta 1000000000
          (20000000 - 10000000) 10000000 8)
      ∧ ((20000000 : Nat) = 2 * 10000000 →
          r ≤ 1000000000 + max 1 (specFloorDiv (3 * (2 - 1) * 1000000000) 8)) :=
  calcBaseFee_change_bounds scenarioConfig ⟨1, 20000000, 20000000, some 1000000000⟩
    1000000000 (by decide) rfl (by decide) (by decide) (by decide) (by decide)

/-- C14. With elasticity multiplier 2 and denominator 8, for a post-activation parent with
base fee 1, gasTarget ≥ 1 and gasTarget < gasUsed ≤ gasLimit, the unclamped delta
floor(1 × diff × 3 / (gasTarget × 8)) is 0, the minimum-increase clamp makes it 1, and
CalcBaseFee returns exactly 2. -/
theorem calcBaseFee_unit_fee_over_target (config : ChainConfig) (parent : Header)
    (he : config.elasticityMultiplier = 2)
    (hd : config.baseFeeChangeDenominator = 8)
    (hl : IsLondon config parent.number = true)
    (hb : parent.baseFee = some 1)
    (ht : 1 ≤ GasTarget config parent.gasLimit)
    (hgt : GasTarget config parent.gasLimit < parent.gasUsed)
    (hu : parent.gasUsed ≤ parent.gasLimit) :
    specIncreaseDelta 1
        ((parent.gasUsed : Int) - (GasTarget config parent.gasLimit : Int))
        (GasTarget config parent.gasLimit) 8 = 0
      ∧ max 1 (specIncreaseDelta 1
          ((parent.gasUsed : Int) - (GasTarget config parent.gasLimit : Int))
          (GasTarget config parent.gasLimit) 8) = 1
      ∧ CalcBaseFee config parent = some 2 := by
  have hgl : parent.gasLimit < 2 * GasTarget config parent.gasLimit + 2 := by
    unfold GasTarget; rw [he]; omega
  have hzero : specIncreaseDelta 1
      ((parent.gasUsed : Int) - (GasTarget config parent.gasLimit : Int))
      (GasTarget config parent.gasLimit) 8 = 0 := by
    rw [specIncreaseDelta_eq]
    apply Int.ediv_eq_zero_of_lt
    · omega
    · push_cast; omega
  have hval := CalcBaseFee_above_target config parent 1 hl hb hgt ht (by omega)
  have hsame : ((parent.gasUsed - GasTarget config parent.gasLimit : Nat) : Int) * 1 * 3
      / ((GasTarget config parent.gasLimit : Int) * (config.baseFeeChangeDenominator : Int))
      = 0 := by
    rw [hd]
    apply Int.ediv_eq_zero_of_lt
    · omega
    · push_cast; omega
  refine ⟨hzero, by rw [hzero]; rfl, ?_⟩
  rw [hval, hsame]
  rfl

/-- A full parent with base fee 1 (gasLimit and gasUsed 20_000_000): delta 0, clamp 1,
result 2. -/
theorem calcBaseFee_unit_fee_over_target_witness :
    specIncreaseDelta 1 (20000000 - 10000000) 10000000 8 = 0
      ∧ max 1 (specIncreaseDelta 1 (20000000 - 10000000) 10000000 8) = 1
      ∧ CalcBaseFee scenarioConfig ⟨1, 20000000, 20000000, some 1⟩ = some 2 :=
  calcBaseFee_unit_fee_over_target scenarioConfig ⟨1, 20000000, 20000000, some 1⟩
    rfl rfl (by decide) rfl (by decide) (by decide) (by decide)

/-- C15. Asymmetry of the two slopes: for base fee ≥ 0, gasTarget ≥ 1, denominator ≥ 1 and
a distance k with 1 ≤ k ≤ gasTarget, two parents that differ only in gasUsed, one at
gasTarget + k and one at gasTarget − k, give rise = CalcBaseFee(over) − baseFee and
fall = baseFee − CalcBaseFee(under) with 3 × fall ≤ rise ≤ 3 × fall + 2. -/
theorem calcBaseFee_rise_vs_fall (config : ChainConfig) (n gl k : Nat) (b : Int)
    (hl : IsLondon config n = true)
    (hb0 : 0 ≤ b)
    (hd : 1 ≤ config.baseFeeChangeDenominator)
    (hk1 : 1 ≤ k)
    (hk : k ≤ GasTarget config gl) :
    ∃ over under : Int,
      CalcBaseFee config ⟨n, gl, GasTarget config gl + k, some b⟩ = some over
        ∧ CalcBaseFee config ⟨n, gl, GasTarget config gl - k, some b⟩ = some under
        ∧ 3 * (b - under) ≤ over - b
        ∧ over - b ≤ 3 * (b - under) + 2 := by
  have ht : 1 ≤ GasTarget config gl := by omega
  have hm := gasDenom_pos ht hd
  have hup := CalcBaseFee_mk_above config n gl (GasTarget config gl + k) b hl (by omega) ht hd
  have hdown := CalcBaseFee_mk_below config n gl (GasTarget config gl - k) b hl hb0
    (by omega) hd
  have e1 : GasTarget config gl + k - GasTarget config gl = k := by omega
  have e2 : GasTarget config gl - (GasTarget config gl - k) = k := by omega
  rw [e1] at hup
  rw [e2] at hdown
  have hbd := decrease_delta_bounds b k (GasTarget config gl)
    config.baseFeeChangeDenominator hb0 hk ht hd
  have h3 := three_mul_ediv_bounds ((k : Int) * b)
    ((GasTarget config gl : Int) * (config.baseFeeChangeDenominator : Int)) hm
  refine ⟨_, _, hup, hdown, ?_, ?_⟩
  · have := le_max_right (1 : Int) ((k : Int) * b * 3
      / ((GasTarget config gl : Int) * (config.baseFeeChangeDenominator : Int)))
    omega
  · rcases max_choice (1 : Int) ((k : Int) * b * 3
      / ((GasTarget config gl : Int) * (config.baseFeeChangeDenominator : Int))) with h | h
    · rw [h]; omega
    · rw [h]; omega

/-- Scenario parents 50% over and 50% under target: rise 187_500_000, fall 62_500_000. -/
theorem calcBaseFee_rise_vs_fall_witness :
    ∃ over under : Int,
      CalcBaseFee scenarioConfig ⟨1, 20000000, 10000000 + 5000000, some 1000000000⟩ = some over
        ∧ CalcBaseFee scenarioConfig ⟨1, 20000000, 10000000 - 5000000, some 1000000000⟩
            = some under
        ∧ 3 * (1000000000 - under) ≤ over - 1000000000
        ∧ over - 1000000000 ≤ 3 * (1000000000 - under) + 2 :=
  calcBaseFee_rise_vs_fall scenarioConfig 1 20000000 5000000 1000000000
    (by decide) (by decide) (by decide) (by decide) (by decide)

/-- C16. On the decrease path the zero floor is idle for unsigned inputs: for a
post-activation parent with base fee ≥ 0, denominator ≥ 1 and gasUsed < gasTarget,
delta = floor(baseFee × (gasTarget − gasUsed) / (gasTarget × denominator)) satisfies
delta ≤ floor(baseFee / denominator) ≤ baseFee, CalcBaseFee returns baseFee − delta exactly,
and delta = floor(baseFee / denominator) when gasUsed = 0. -/
theorem calcBaseFee_under_target_exact (config : ChainConfig) (parent : Header) (b : Int)
    (hl : IsLondon config parent.number = true)
    (hb : parent.baseFee = some b)
    (hb0 : 0 ≤ b)
    (hd : 1 ≤ config.baseFeeChangeDenominator)
    (hlt : parent.gasUsed < GasTarget config parent.gasLimit) :
    specDecreaseDelta b ((GasTarget config parent.gasLimit : Int) - (parent.gasUsed : Int))
          (GasTarget config parent.gasLimit) config.baseFeeChangeDenominator
        ≤ specFloorDiv b config.baseFeeChangeDenominator
      ∧ specFloorDiv b config.baseFeeChangeDenominator ≤ b
      ∧ CalcBaseFee config parent
        = some (b - specDecreaseDelta b
            ((GasTarget config parent.gasLimit : Int) - (parent.gasUsed : Int))
            (GasTarget config parent.gasLimit) config.baseFeeChangeDenominator)
      ∧ (parent.gasUsed = 0 →
          specDecreaseDelta b
              ((GasTarget config parent.gasLimit : Int) - (parent.gasUsed : Int))
              (GasTarget config parent.gasLimit) config.baseFeeChangeDenominator
            = specFloorDiv b config.baseFeeChangeDenominator) := by
  obtain ⟨n, gl, u, pb⟩ := parent
  simp only at hl hb hlt ⊢
  subst hb
  have ht : 1 ≤ GasTarget config gl := by omega
  have ht0 : (0 : Int) < (GasTarget config gl : Int) := by omega
  have hbd := decrease_delta_bounds b (GasTarget config gl - u) (GasTarget config gl)
    config.baseFeeChangeDenominator hb0 (Nat.sub_le _ _) ht hd
  have hform : specDecreaseDelta b ((GasTarget config gl : Int) - (u : Int))
      (GasTarget config gl) config.baseFeeChangeDenominator
      = ((GasTarget config gl - u : Nat) : Int) * b
          / ((GasTarget config gl : Int) * (config.baseFeeChangeDenominator : Int)) := by
    rw [specDecreaseDelta_eq, Nat.cast_sub hlt.le, mul_comm b]
  rw [hform, specFloorDiv_eq]
  refine ⟨hbd.2.1, hbd.2.2, CalcBaseFee_mk_below config n gl u b hl hb0 hlt hd, ?_⟩
  intro hu0
  subst hu0
  rw [Nat.sub_zero, Int.mul_ediv_mul_of_pos _ _ ht0]

/-- An empty parent (gasUsed 0) with base fee 1_000_000_000 and denominator 8: the delta is
the full floor(baseFee / 8) = 125_000_000 and the result 875_000_000. -/
theorem calcBaseFee_under_target_exact_witness :
    CalcBaseFee scenarioConfig ⟨1, 20000000, 0, some 1000000000⟩
        = some (1000000000 - specDecreaseDelta 1000000000 (10000000 - 0) 10000000 8)
      ∧ specDecreaseDelta 1000000000 (10000000 - 0) 10000000 8 = specFloorDiv 1000000000 8
      ∧ CalcBaseFee scenarioConfig ⟨1, 20000000, 0, some 1000000000⟩ = some 875000000 :=
  ⟨(calcBaseFee_under_target_exact scenarioConfig ⟨1, 20000000, 0, some 1000000000⟩
      1000000000 (by decide) rfl (by decide) (by decide) (by decide)).2.2.1,
    (calcBaseFee_under_target_exact scenarioConfig ⟨1, 20000000, 0, some 1000000000⟩
      1000000000 (by decide) rfl (by decide) (by decide) (by decide)).2.2.2 rfl,
    by decide⟩

/-! ## Monotonicity and positivity -/

/-- The upward adjustment grows with the distance from the target. -/
theorem increase_delta_mono_diff (b : Int) (d1 d2 t d : Nat) (hb0 : 0 ≤ b) (h12 : d1 ≤ d2)
    (ht : 1 ≤ t) (hd : 1 ≤ d) :
    (d1 : Int) * b * 3 / ((t : Int) * (d : Int)) ≤ (d2 : Int) * b * 3 / ((t : Int) * (d : Int)) := by
  apply Int.ediv_le_ediv (gasDenom_pos ht hd)
  have h : (d1 : Int) ≤ (d2 : Int) := by exact_mod_cast h12
  nlinarith

/-- The downward adjustment grows with the distance from the target. -/
theorem decrease_delta_mono_diff (b : Int) (d1 d2 t d : Nat) (hb0 : 0 ≤ b) (h12 : d1 ≤ d2)
    (ht : 1 ≤ t) (hd : 1 ≤ d) :
    (d1 : Int) * b / ((t : Int) * (d : Int)) ≤ (d2 : Int) * b / ((t : Int) * (d : Int)) := by
  apply Int.ediv_le_ediv (gasDenom_pos ht hd)
  have h : (d1 : Int) ≤ (d2 : Int) := by exact_mod_cast h12
  nlinarith

/-- The upward adjustment grows with the base fee. -/
theorem increase_delta_mono_fee (b1 b2 : Int) (diff t d : Nat) (h12 : b1 ≤ b2)
    (ht : 1 ≤ t) (hd : 1 ≤ d) :
    (diff : Int) * b1 * 3 / ((t : Int) * (d : Int))
      ≤ (diff : Int) * b2 * 3 / ((t : Int) * (d : Int)) := by
  apply Int.ediv_le_ediv (gasDenom_pos ht hd)
  have h : (0 : Int) ≤ (diff : Int) := Int.ofNat_nonneg _
  nlinarith

/-- The downward adjustment grows no faster than the base fee itself. -/
theorem decrease_delta_lipschitz (b1 b2 : Int) (diff t d : Nat) (h12 : b1 ≤ b2)
    (hdt : diff ≤ t) (ht : 1 ≤ t) (hd : 1 ≤ d) :
    (diff : Int) * b2 / ((t : Int) * (d : Int))
      ≤ (diff : Int) * b1 / ((t : Int) * (d : Int)) + (b2 - b1) := by
  have hm := gasDenom_pos ht hd
  have hdiff : (diff : Int) ≤ (t : Int) * (d : Int) := by
    have h1 : (diff : Int) ≤ (t : Int) := by exact_mod_cast hdt
    have h2 : (1 : Int) ≤ (d : Int) := by exact_mod_cast hd
    have h3 : (0 : Int) ≤ (t : Int) := Int.ofNat_nonneg _
    nlinarith
  have hnum : (diff : Int) * b2
      ≤ (diff : Int) * b1 + (b2 - b1) * ((t : Int) * (d : Int)) := by
    have h0 : (0 : Int) ≤ b2 - b1 := by omega
    nlinarith
  calc (diff : Int) * b2 / ((t : Int) * (d : Int))
      ≤ ((diff : Int) * b1 + (b2 - b1) * ((t : Int) * (d : Int)))
          / ((t : Int) * (d : Int)) := Int.ediv_le_ediv hm hnum
    _ = (diff : Int) * b1 / ((t : Int) * (d : Int)) + (b2 - b1) :=
        Int.add_mul_ediv_right _ _ (ne_of_gt hm)

/-- C17. CalcBaseFee is monotone non-decreasing in the parent's gas usage: for a
post-activation configuration with gasTarget ≥ 1, denominator ≥ 1 and base fee ≥ 0, two
parents that differ only in gasUsed, with gasUsed1 ≤ gasUsed2, give
CalcBaseFee(parent1) ≤ CalcBaseFee(parent2), across the three branches. -/
theorem calcBaseFee_mono_gasUsed (config : ChainConfig) (n gl u1 u2 : Nat) (b : Int)
    (hl : IsLondon config n = true)
    (hb0 : 0 ≤ b)
    (hd : 1 ≤ config.baseFeeChangeDenominator)
    (ht : 1 ≤ GasTarget config gl)
    (h12 : u1 ≤ u2) :
    ∃ r1 r2 : Int,
      CalcBaseFee config ⟨n, gl, u1, some b⟩ = some r1
        ∧ CalcBaseFee config ⟨n, gl, u2, some b⟩ = some r2
        ∧ r1 ≤ r2 := by
  have hlow : ∀ u, u < GasTarget config gl →
      b - ((GasTarget config gl - u : Nat) : Int) * b
        / ((GasTarget config gl : Int) * (config.baseFeeChangeDenominator : Int)) ≤ b := by
    intro u _
    have := decrease_delta_bounds b (GasTarget config gl - u) (GasTarget config gl)
      config.baseFeeChangeDenominator hb0 (Nat.sub_le _ _) ht hd
    omega
  have hhigh : ∀ u : Nat,
      b < b + max 1 (((u - GasTarget config gl : Nat) : Int) * b * 3
        / ((GasTarget config gl : Int) * (config.baseFeeChangeDenominator : Int))) := by
    intro u
    have := le_max_left (1 : Int) (((u - GasTarget config gl : Nat) : Int) * b * 3
      / ((GasTarget config gl : Int) * (config.baseFeeChangeDenominator : Int)))
    omega
  rcases Nat.lt_trichotomy u1 (GasTarget config gl) with h1 | h1 | h1
  · rcases Nat.lt_trichotomy u2 (GasTarget config gl) with h2 | h2 | h2
    · refine ⟨_, _, CalcBaseFee_mk_below config n gl u1 b hl hb0 h1 hd,
        CalcBaseFee_mk_below config n gl u2 b hl hb0 h2 hd, ?_⟩
      have := decrease_delta_mono_diff b (GasTarget config gl - u2) (GasTarget config gl - u1)
        (GasTarget config gl) config.baseFeeChangeDenominator hb0 (by omega) ht hd
      omega
    · exact ⟨_, _, CalcBaseFee_mk_below config n gl u1 b hl hb0 h1 hd,
        CalcBaseFee_mk_at config n gl u2 b hl h2, hlow u1 h1⟩
    · exact ⟨_, _, CalcBaseFee_mk_below config n gl u1 b hl hb0 h1 hd,
        CalcBaseFee_mk_above config n gl u2 b hl h2 ht hd,
        le_trans (hlow u1 h1) (hhigh u2).le⟩
  · rcases Nat.lt_or_ge (GasTarget config gl) u2 with h2 | h2
    · exact ⟨_, _, CalcBaseFee_mk_at config n gl u1 b hl h1,
        CalcBaseFee_mk_above config n gl u2 b hl h2 ht hd, (hhigh u2).le⟩
    · exact ⟨_, _, CalcBaseFee_mk_at config n gl u1 b hl h1,
        CalcBaseFee_mk_at config n gl u2 b hl (by omega), le_rfl⟩
  · have h2 : GasTarget config gl < u2 := by omega
    refine ⟨_, _, CalcBaseFee_mk_above config n gl u1 b hl h1 ht hd,
      CalcBaseFee_mk_above config n gl u2 b hl h2 ht hd, ?_⟩
    have := increase_delta_mono_diff b (u1 - GasTarget config gl) (u2 - GasTarget config gl)
      (GasTarget config gl) config.baseFeeChangeDenominator hb0 (by omega) ht hd
    have := max_le_max (le_refl (1 : Int)) this
    omega

/-- Scenario parents 50% under and 50% over target: 937_500_000 ≤ 1_187_500_000. -/
theorem calcBaseFee_mono_gasUsed_witness :
    ∃ r1 r2 : Int,
      CalcBaseFee scenarioConfig ⟨1, 20000000, 5000000, some 1000000000⟩ = some r1
        ∧ CalcBaseFee scenarioConfig ⟨1, 20000000, 15000000, some 1000000000⟩ = some r2
        ∧ r1 ≤ r2 :=
  calcBaseFee_mono_gasUsed scenarioConfig 1 20000000 5000000 15000000 1000000000
    (by decide) (by decide) (by decide) (by decide) (by decide)

/-- C18. CalcBaseFee is monotone non-decreasing in the parent's base fee: for a
post-activation configuration with gasTarget ≥ 1 and denominator ≥ 1, two parents that
differ only in baseFee, with 0 ≤ baseFee1 ≤ baseFee2 (and gasUsed ≤ gasLimit), give
CalcBaseFee(parent1) ≤ CalcBaseFee(parent2). -/
theorem calcBaseFee_mono_baseFee (config : ChainConfig) (n gl u : Nat) (b1 b2 : Int)
    (hl : IsLondon config n = true)
    (hb0 : 0 ≤ b1)
    (h12 : b1 ≤ b2)
    (hd : 1 ≤ config.baseFeeChangeDenominator)
    (ht : 1 ≤ GasTarget config gl)
    (_hu : u ≤ gl) :
    ∃ r1 r2 : Int,
      CalcBaseFee config ⟨n, gl, u, some b1⟩ = some r1
        ∧ CalcBaseFee config ⟨n, gl, u, some b2⟩ = some r2
        ∧ r1 ≤ r2 := by
  have hb2 : 0 ≤ b2 := le_trans hb0 h12
  rcases Nat.lt_trichotomy u (GasTarget config gl) with h | h | h
  · refine ⟨_, _, CalcBaseFee_mk_below config n gl u b1 hl hb0 h hd,
      CalcBaseFee_mk_below config n gl u b2 hl hb2 h hd, ?_⟩
    have := decrease_delta_lipschitz b1 b2 (GasTarget config gl - u) (GasTarget config gl)
      config.baseFeeChangeDenominator h12 (Nat.sub_le _ _) ht hd
    omega
  · exact ⟨_, _, CalcBaseFee_mk_at config n gl u b1 hl h,
      CalcBaseFee_mk_at config n gl u b2 hl h, h12⟩
  · refine ⟨_, _, CalcBaseFee_mk_above config n gl u b1 hl h ht hd,
      CalcBaseFee_mk_above config n gl u b2 hl h ht hd, ?_⟩
    have := increase_delta_mono_fee b1 b2 (u - GasTarget config gl) (GasTarget config gl)
      config.baseFeeChangeDenominator h12 ht hd
    have := max_le_max (le_refl (1 : Int)) this
    omega

/-- An under-target parent with base fee 7 against the same parent with base fee 8. -/
theorem calcBaseFee_mono_baseFee_witness :
    ∃ r1 r2 : Int,
      CalcBaseFee scenarioConfig ⟨1, 20000000, 0, some 7⟩ = some r1
        ∧ CalcBaseFee scenarioConfig ⟨1, 20000000, 0, some 8⟩ = some r2
        ∧ r1 ≤ r2 :=
  calcBaseFee_mono_baseFee scenarioConfig 1 20000000 0 7 8
    (by decide) (by decide) (by decide) (by decide) (by decide) (by decide)

/-- C19. Positivity of the base fee is preserved: for a post-activation parent with
gasTarget ≥ 1 and denominator ≥ 2, a base fee ≥ 1 gives a returned value ≥ 1 in every
branch; a zero base fee stays zero at or under target and becomes 1 over target. -/
theorem calcBaseFee_positive (config : ChainConfig) (parent : Header) (b : Int)
    (hl : IsLondon config parent.number = true)
    (hb : parent.baseFee = some b)
    (ht : 1 ≤ GasTarget config parent.gasLimit)
    (hd : 2 ≤ config.baseFeeChangeDenominator) :
    (1 ≤ b → ∃ r : Int, CalcBaseFee config parent = some r ∧ 1 ≤ r)
      ∧ (b = 0 → parent.gasUsed ≤ GasTarget config parent.gasLimit →
          CalcBaseFee config parent = some 0)
      ∧ (b = 0 → GasTarget config parent.gasLimit < parent.gasUsed →
          CalcBaseFee config parent = some 1) := by
  obtain ⟨n, gl, u, pb⟩ := parent
  simp only at hl hb ht ⊢
  subst hb
  have hd1 : 1 ≤ config.baseFeeChangeDenominator := by omega
  refine ⟨?_, ?_, ?_⟩
  · intro hb1
    have hb0 : 0 ≤ b := by omega
    rcases Nat.lt_trichotomy u (GasTarget config gl) with h | h | h
    · refine ⟨_, CalcBaseFee_mk_below config n gl u b hl hb0 h hd1, ?_⟩
      have hbd := decrease_delta_bounds b (GasTarget config gl - u) (GasTarget config gl)
        config.baseFeeChangeDenominator hb0 (Nat.sub_le _ _) ht hd1
      have hlt : b / (config.baseFeeChangeDenominator : Int) < b := by
        apply Int.ediv_lt_of_lt_mul (by omega)
        have h2 : (2 : Int) ≤ (config.baseFeeChangeDenominator : Int) := by exact_mod_cast hd
        nlinarith
      omega
    · exact ⟨b, CalcBaseFee_mk_at config n gl u b hl h, hb1⟩
    · refine ⟨_, CalcBaseFee_mk_above config n gl u b hl h ht hd1, ?_⟩
      have := le_max_left (1 : Int) (((u - GasTarget config gl : Nat) : Int) * b * 3
        / ((GasTarget config gl : Int) * (config.baseFeeChangeDenominator : Int)))
      omega
  · intro hz hle
    subst hz
    rcases Nat.lt_or_ge u (GasTarget config gl) with h | h
    · rw [CalcBaseFee_mk_below config n gl u 0 hl le_rfl h hd1]
      simp
    · exact CalcBaseFee_mk_at config n gl u 0 hl (by omega)
  · intro hz hgt
    subst hz
    rw [CalcBaseFee_mk_above config n gl u 0 hl hgt ht hd1]
    simp

/-- An empty parent with base fee 1 (the smallest positive fee): the returned fee is still
at least 1. -/
theorem calcBaseFee_positive_witness :
    ∃ r : Int, CalcBaseFee scenarioConfig ⟨1, 20000000, 0, some 1⟩ = some r ∧ 1 ≤ r :=
  (calcBaseFee_positive scenarioConfig ⟨1, 20000000, 0, some 1⟩ 1
    (by decide) rfl (by decide) (by decide)).1 (by decide)

end Eip1559
